import Mathlib

/-!
Shallow embedding of the evaluation core of `py/rnn/evaluator.py`
(classes `Evaluator` and `Recorder`), with the persistence collaborator
`py.db.language_model` modelled as an explicit event log.

Conventions:
* a 2-D numpy array of ints is a `List (List Int)` (row-major, axis 0 = batch);
* a Python exception is the `Except.error` / `Option.none` branch;
* a `defaultdict(list)` buffer key is an `Option (List _)`: `none` means the
  key is absent (so `dict.pop` on it raises `KeyError`, while `d[k]` creates
  an empty list);
* numpy scalar metrics are rationals.
-/

/-- One step over a list of optional results: `some` of the list of values when
every element succeeds, `none` as soon as one fails (models a Python loop or
comprehension in which an indexing error aborts the whole statement). -/
def optMap (f : α → Option β) : List α → Option (List β)
  | [] => some []
  | a :: as =>
    match f a, optMap f as with
    | some b, some bs => some (b :: bs)
    | _, _ => none

/-- Shape predicate for a 2-D array: `B` rows, each of length `U`. -/
def Shape2 (B U : ℕ) (t : List (List Int)) : Prop :=
  t.length = B ∧ ∀ row ∈ t, row.length = U

/-- Shape predicate for a 3-D array: `B × N × U`. -/
def Shape3 (B N U : ℕ) (t : List (List (List Int))) : Prop :=
  t.length = B ∧ ∀ plane ∈ t, plane.length = N ∧ ∀ row ∈ plane, row.length = U

/-! ## Persistence collaborator (event log) -/

/-- Modelled from the spec: the persistence collaborator of
`py.db.language_model` (not under `src/`).  Its observable behaviour is an
event log: `insertions` records each `insert_evaluation` call (dataset name,
model name, token sequence) and returns an opaque fresh document id
(modelled as a counter), `pushes` records each `push_evaluation_records`
batch-append call. -/
structure Persist where
  nextId : ℕ
  insertions : List (String × String × List Int)
  pushes : List (List ℕ × List (List (String × Int) × Int))
  deriving Repr, DecidableEq

/-- Modelled from the spec: `insert_evaluation(dataset_name, model_name,
token_sequence) -> document_id`, called once per sample at recorder start;
returns a fresh opaque id and logs the call. -/
def insert_evaluation (p : Persist) (dataName modelName : String)
    (tokens : List Int) : ℕ × Persist :=
  (p.nextId,
   { p with nextId := p.nextId + 1,
            insertions := p.insertions ++ [(dataName, modelName, tokens)] })

/-- Modelled from the spec: `push_evaluation_records(eval_ids, records)`,
a batch append of parallel-indexed ids and per-sample record dicts; logged
as one event. -/
def push_evaluation_records (p : Persist) (ids : List ℕ)
    (recs : List (List (String × Int) × Int)) : Persist :=
  { p with pushes := p.pushes ++ [(ids, recs)] }

/-! ## Recorder -/

/-- One per-sample record dict built by `Recorder.record`: the per-sample
slice of every signal in the message, plus the stamped `word_id`. -/
structure RecEntry where
  signals : List (String × Int)
  word_id : Int
  deriving Repr, DecidableEq

/-- State of a `Recorder` object.  `buf_records` / `buf_eval_ids` model the
two keys of the `defaultdict(list)` buffer: `none` = key absent. -/
structure Recorder where
  data_name : String
  model_name : String
  eval_doc_id : List ℕ
  buf_records : Option (List RecEntry)
  buf_eval_ids : Option (List ℕ)
  batch_size : ℕ
  inputs : Option (List (List Int))
  flush_every : ℕ
  step : ℕ
  deriving Repr, DecidableEq

/-- Observable length of a buffer key, as Python `len(self.buffer[k])` would
report it (a missing key reads as a fresh empty list). -/
def bufLen (b : Option (List α)) : ℕ := (b.getD []).length

/-- `Recorder.__init__(data_name, model_name, flush_every=100)`. -/
def Recorder.init (dataName modelName : String) (flushEvery : ℕ) : Recorder :=
  { data_name := dataName
    model_name := modelName
    eval_doc_id := []
    buf_records := none
    buf_eval_ids := none
    batch_size := 1
    inputs := none
    flush_every := flushEvery
    step := 0 }

/-- The `for i in range(inputs.shape[0])` loop of `Recorder.start`: one
`insert_evaluation` call per sample row, in row order, collecting the
returned ids in order. -/
def insertAll (dataName modelName : String) :
    List (List Int) → Persist → List ℕ × Persist
  | [], p => ([], p)
  | row :: rest, p =>
    let idp := insert_evaluation p dataName modelName row
    let rec2 := insertAll dataName modelName rest idp.2
    (idp.1 :: rec2.1, rec2.2)

/-- `Recorder.start(inputs, targets)`.  `targets` is unused by the source.
Sets `batch_size` and retains `inputs`, then appends one document id per
row to `self.eval_doc_id`.  Note the source neither clears the buffer nor
resets `self.step`; `eval_doc_id` is appended to, not replaced. -/
def Recorder.start (r : Recorder) (inputs : List (List Int)) (p : Persist) :
    Recorder × Persist :=
  let idsp := insertAll r.data_name r.model_name inputs p
  ({ r with batch_size := inputs.length,
            inputs := some inputs,
            eval_doc_id := r.eval_doc_id ++ idsp.1 },
   idsp.2)

/-- The dict comprehension `{name: value[i] for name, value in
record_message.items()}` for one sample index `i`; `none` models an
`IndexError` when some signal array is too short. -/
def sampleDict (msg : List (String × List Int)) (i : ℕ) :
    Option (List (String × Int)) :=
  optMap (fun nv => (nv.2[i]?).map (fun v => (nv.1, v))) msg

/-- The list comprehension building one per-sample dict for each
`i in range(self.batch_size)`. -/
def buildRecords (msg : List (String × List Int)) (B : ℕ) :
    Option (List (List (String × Int))) :=
  optMap (sampleDict msg) (List.range B)

/-- The stamping loop `record['word_id'] = int(self.inputs[i, self.step])`:
the token at column `step` of row `i`, for each `i in range(batch_size)`;
`none` models an `IndexError`. -/
def wordIds (inp : List (List Int)) (step B : ℕ) : Option (List Int) :=
  optMap (fun i => (inp[i]?).bind (fun row => row[step]?)) (List.range B)

/-- `Recorder.flush()`: `push_evaluation_records(self.buffer.pop('eval_ids'),
self.buffer.pop('records'))`.  `dict.pop` on a `defaultdict` raises
`KeyError` when the key is absent (`__missing__` only serves `__getitem__`),
so `none` here models that `KeyError`.  A successful flush removes both keys
and logs exactly one push. -/
def Recorder.flush (r : Recorder) (p : Persist) : Option (Recorder × Persist) :=
  match r.buf_eval_ids, r.buf_records with
  | some ids, some recs =>
    some ({ r with buf_eval_ids := none, buf_records := none },
          push_evaluation_records p ids (recs.map (fun e => (e.signals, e.word_id))))
  | _, _ => none

/-- `Recorder.record(record_message)`.  Builds `batch_size` per-sample dicts,
stamps each with `word_id = inputs[i, self.step]` (the source never
increments `self.step`), appends the dicts to `buffer['records']` and the
whole `self.eval_doc_id` list to `buffer['eval_ids']`, then flushes when
`len(buffer['eval_ids']) >= flush_every`.  `none` models an uncaught
exception (unset `inputs`, or an out-of-range index). -/
def recordWith (r : Recorder) (msg : List (String × List Int))
    (p : Persist) (inp : List (List Int)) : Option (Recorder × Persist) :=
  match buildRecords msg r.batch_size, wordIds inp r.step r.batch_size with
  | some sigs, some wids =>
    let records := List.zipWith RecEntry.mk sigs wids
    let newRecords := r.buf_records.getD [] ++ records
    let newIds := r.buf_eval_ids.getD [] ++ r.eval_doc_id
    let r2 := { r with buf_records := some newRecords,
                       buf_eval_ids := some newIds }
    if r.flush_every ≤ newIds.length then r2.flush p else some (r2, p)
  | _, _ => none

/-- `Recorder.record(record_message)` dispatches on `self.inputs` (a `None`
left from `__init__` makes the indexing expression raise) and then runs the
body above on the retained 2-D inputs array. -/
def Recorder.record (r : Recorder) (msg : List (String × List Int))
    (p : Persist) : Option (Recorder × Persist) :=
  match r.inputs with
  | none => none
  | some inp => recordWith r msg p inp

/-! ## Evaluator construction (`Evaluator.__init__`) -/

/-- One layer's hidden-state entry of `self.model.state`: either a plain
single tensor or an `LSTMStateTuple` cell/hidden pair.  Tensors here are
2-D `[batch_size, n_units]` arrays. -/
inductive LayerState where
  | plain : List (List Int) → LayerState
  | lstm : List (List Int) → List (List Int) → LayerState
  deriving Repr, DecidableEq

/-- The three `summary_ops` groups filled by the `log_state` loop. -/
structure StateGroups where
  state_c : List (List (List Int))
  state_h : List (List (List Int))
  state : List (List (List Int))
  deriving Repr, DecidableEq

/-- The `for s in self.model.state` loop: an `LSTMStateTuple` appends its
cell to `state_c` and its hidden to `state_h`; any other state appends to
`state`. -/
def collectStates (ss : List LayerState) : StateGroups :=
  ss.foldl
    (fun g s =>
      match s with
      | .plain t => { g with state := g.state ++ [t] }
      | .lstm c h =>
        { state_c := g.state_c ++ [c], state_h := g.state_h ++ [h],
          state := g.state })
    ⟨[], [], []⟩

/-- The plain-state tensors of a layer list, in layer order. -/
def plainsOf (ss : List LayerState) : List (List (List Int)) :=
  ss.filterMap (fun s => match s with | .plain t => some t | .lstm _ _ => none)

/-- The cell tensors of the gated layers, in layer order. -/
def cellsOf (ss : List LayerState) : List (List (List Int)) :=
  ss.filterMap (fun s => match s with | .plain _ => none | .lstm c _ => some c)

/-- The hidden tensors of the gated layers, in layer order. -/
def hiddensOf (ss : List LayerState) : List (List (List Int)) :=
  ss.filterMap (fun s => match s with | .plain _ => none | .lstm _ h => some h)

/-- `tf.stack(states, axis=1)` on a list of `[B, U]` tensors: the result at
`[b, l, u]` is `states[l][b][u]`, shape `[B, len(states), U]`. -/
def stackAxis1 (B : ℕ) (ts : List (List (List Int))) :
    List (List (List Int)) :=
  (List.range B).map (fun b => ts.map (fun t => t.getD b []))

/-- A value stored in the `summary_ops` dict: a stacked 3-D state group, or
a raw tensor handle taken directly from the model. -/
inductive SummaryVal where
  | stacked : List (List (List Int)) → SummaryVal
  | raw : List (List Int) → SummaryVal
  deriving Repr, DecidableEq

/-- The attributes of the unrolled model consumed by `Evaluator.__init__`
(graph-level tensor handles, modelled by their values). -/
structure ModelHandle where
  state : List LayerState
  input_holders : List (List Int)
  inputs : List (List Int)
  outputs : List (List Int)
  deriving Repr, DecidableEq

/-- The state-group part of `summary_ops` after the stacking loop
`summary_ops[name] = tf.stack(states, axis=1)`.  A group key exists in the
`defaultdict` only if some layer appended to it (dict key order is not
modelled; no claim depends on it). -/
def stateSummaryOps (ss : List LayerState) (B : ℕ) :
    List (String × SummaryVal) :=
  let g := collectStates ss
  (if g.state_c = [] then []
   else [("state_c", SummaryVal.stacked (stackAxis1 B g.state_c))]) ++
  (if g.state_h = [] then []
   else [("state_h", SummaryVal.stacked (stackAxis1 B g.state_h))]) ++
  (if g.state = [] then []
   else [("state", SummaryVal.stacked (stackAxis1 B g.state))])

/-- The attributes `Evaluator.__init__` binds on `self`.  `summary_ops` is
an `Option` because during `__init__` the attribute is unbound (`none`)
until the final statement `self.summary_ops = summary_ops`. -/
structure SelfEval where
  record_every : ℕ
  log_state : Bool
  log_input : Bool
  log_output : Bool
  model : ModelHandle
  summary_ops : Option (List (String × SummaryVal))
  deriving Repr, DecidableEq

/-- The local variable `summary_ops` as built by the three `log_*` branches
of `Evaluator.__init__` (state groups, then input holders and optional
embedding, then outputs). -/
def buildSummaryOps (m : ModelHandle) (B : ℕ)
    (logState logInput logOutput mapToEmbedding : Bool) :
    List (String × SummaryVal) :=
  (if logState then stateSummaryOps m.state B else []) ++
  (if logInput then
    [("input", SummaryVal.raw m.input_holders)] ++
    (if mapToEmbedding then [("input_embedding", SummaryVal.raw m.inputs)]
     else [])
   else []) ++
  (if logOutput then [("output", SummaryVal.raw m.outputs)] else [])

/-- `Evaluator.__init__`.  The `log_gradients` branch executes
`self.summary_ops['inputs_gradients'] = inputs_gradients` at a point where
the attribute `self.summary_ops` is still unbound (it is only bound by the
later statement `self.summary_ops = summary_ops`), so the subscript-read of
`self.summary_ops` raises `AttributeError`; `boundOps := none` models the
unbound attribute at that program point. -/
def Evaluator.mkInit (m : ModelHandle) (B recordEvery : ℕ)
    (logState logInput logOutput logGradients mapToEmbedding : Bool) :
    Except String SelfEval :=
  let summaryOps := buildSummaryOps m B logState logInput logOutput mapToEmbedding
  let boundOps : Option (List (String × SummaryVal)) := none
  if logGradients then
    match boundOps with
    | none =>
      Except.error "AttributeError: Evaluator object has no attribute summary_ops"
    | some d =>
      Except.ok { record_every := recordEvery, log_state := logState,
                  log_input := logInput, log_output := logOutput, model := m,
                  summary_ops :=
                    some (d ++ [("inputs_gradients", SummaryVal.raw m.inputs)]) }
  else
    Except.ok { record_every := recordEvery, log_state := logState,
                log_input := logInput, log_output := logOutput, model := m,
                summary_ops := some summaryOps }

/-! ## `Evaluator.evaluate` -/

/-- The accumulation loop of `Evaluator.evaluate`: each iteration adds the
block's `loss` and `acc-1` sums (one pair per loop step, the model run being
an external collaborator) into the running totals. -/
def evalTotals (steps : List (ℚ × ℚ)) : ℚ × ℚ :=
  steps.foldl (fun acc s => (acc.1 + s.1, acc.2 + s.2)) (0, 0)

/-- `Evaluator.evaluate` final metrics: the loop runs `input_size` times
(here `steps.length = input_size`, one `(loss, acc)` pair per iteration)
and the reported averages divide the totals by
`input_size * record_every`. -/
def Evaluator.evaluate (steps : List (ℚ × ℚ)) (recordEvery : ℕ) : ℚ × ℚ :=
  let totals := evalTotals steps
  (totals.1 / ((steps.length * recordEvery : ℕ) : ℚ),
   totals.2 / ((steps.length * recordEvery : ℕ) : ℚ))

/-! ## `Evaluator.evaluate_and_record` -/

/-- An argument to `evaluate_and_record` as seen by `np.array(...)`: either
it converts to a 2-D integer array, or the conversion raises and the bare
`except` observes only the value's runtime type name. -/
inductive PyVal where
  | convertible : List (List Int) → PyVal
  | unconvertible : String → PyVal
  deriving Repr, DecidableEq

/-- `np.array(v)` restricted to the two cases the source distinguishes:
success with a 2-D array, or an exception (reported with the type name). -/
def npArray : PyVal → Except String (List (List Int))
  | .convertible a => Except.ok a
  | .unconvertible tname => Except.error tname

/-- Python `%` on naturals: raises `ZeroDivisionError` when the modulus is
zero. -/
def pymod (a b : ℕ) : Except String ℕ :=
  if b = 0 then Except.error "ZeroDivisionError" else Except.ok (a % b)

/-- The recording loop of `evaluate_and_record`, over the index list
`range(input_size)` with `L = input_size = inputs.shape[1]`.  Each
iteration runs the model on column `i` (the signal bundle it returns is the
external collaborator `msgs i`), records it, and then evaluates the verbose
progress test `verbose and i % (input_size // 10) == 0 and i != 0`, whose
modulo divides by `L / 10` (Python `//`) and short-circuits on
`verbose = false`.  An error carries the persistence state at raise time. -/
def evalRecordGo (msgs : ℕ → List (String × List Int)) (verbose : Bool)
    (L : ℕ) : List ℕ → Recorder → Persist →
    Except (String × Persist) (Recorder × Persist)
  | [], r, p => Except.ok (r, p)
  | i :: rest, r, p =>
    match r.record (msgs i) p with
    | none => Except.error ("uncaught exception in record", p)
    | some rp =>
      if verbose then
        match pymod i (L / 10) with
        | Except.error e => Except.error (e, rp.2)
        | Except.ok _ => evalRecordGo msgs verbose L rest rp.1 rp.2
      else evalRecordGo msgs verbose L rest rp.1 rp.2

/-- `inputs.shape[1]` of the converted 2-D array. -/
def shape1 (inp : List (List Int)) : ℕ := (inp.headD []).length

/-- `Evaluator.evaluate_and_record(sess, inputs, targets, recorder, verbose,
refresh_state)`.  Converts `inputs` (and `targets` unless `None`), raising
`TypeError` with the offending type name on failure — before
`recorder.start` runs, so an error carries the unchanged persistence state.
Then starts the recorder and loops over every column. -/
def evaluate_and_record (inputs : PyVal) (targets : Option PyVal)
    (r : Recorder) (p : Persist) (msgs : ℕ → List (String × List Int))
    (verbose : Bool) : Except (String × Persist) (Recorder × Persist) :=
  match npArray inputs with
  | Except.error tname =>
    Except.error
      ("Unable to convert inputs of type " ++ tname ++ " into numpy array!", p)
  | Except.ok inp =>
    match targets.map npArray with
    | some (Except.error tname) =>
      Except.error
        ("Unable to convert targets of type " ++ tname ++ " into numpy array!", p)
    | _ =>
      let rp := r.start inp p
      let L := shape1 inp
      evalRecordGo msgs verbose L (List.range L) rp.1 rp.2

/-! ## Decidability of the shape predicates -/

instance (B U : ℕ) (t : List (List Int)) : Decidable (Shape2 B U t) :=
  inferInstanceAs (Decidable (t.length = B ∧ ∀ row ∈ t, row.length = U))

instance (B N U : ℕ) (t : List (List (List Int))) : Decidable (Shape3 B N U t) :=
  inferInstanceAs
    (Decidable (t.length = B ∧ ∀ plane ∈ t, plane.length = N ∧
                ∀ row ∈ plane, row.length = U))

/-! ## Concrete evaluation scenarios (used by witnesses and counterexamples) -/

/-- A fresh recorder session: `Recorder("data", "model")` (default
`flush_every=100`) started on the single-sample inputs `[[5, 7]]`, against an
empty persistence log. -/
def demoStart : Recorder × Persist :=
  (Recorder.init "data" "model" 100).start [[5, 7]] ⟨0, [], []⟩

/-- First `record({})` call of the demo session. -/
def demoRec1 : Option (Recorder × Persist) := demoStart.1.record [] demoStart.2

/-- Second `record({})` call of the demo session. -/
def demoRec2 : Option (Recorder × Persist) :=
  demoRec1.bind (fun rp => rp.1.record [] rp.2)

/-- A `flush()` right after the first record call of the demo session. -/
def demoFlush1 : Option (Recorder × Persist) :=
  demoRec1.bind (fun rp => rp.1.flush rp.2)

/-- A second `flush()` immediately after the first, with no intervening
`record()`. -/
def demoFlush2 : Option (Recorder × Persist) :=
  demoFlush1.bind (fun rp => rp.1.flush rp.2)

/-- Calling `start` again on the same Recorder object after one recorded
step (a second session on a reused recorder). -/
def demoRestart : Option (Recorder × Persist) :=
  demoRec1.map (fun rp => rp.1.start [[9, 9]] rp.2)

/-- A recorder mid-session with `flush_every=3` and `batch_size=2`, exactly
as left by the first `record` call of a session started on
`[[1, 2], [3, 4]]`: two ids in the buffer, two per-sample dicts. -/
def flushDemoRec : Recorder :=
  ⟨"data", "model", [0, 1], some [⟨[], 1⟩, ⟨[], 3⟩], some [0, 1], 2,
   some [[1, 2], [3, 4]], 3, 0⟩

/-- The persistence log matching `flushDemoRec` (two documents created at
session start). -/
def flushDemoPer : Persist :=
  ⟨2, [("data", "model", [1, 2]), ("data", "model", [3, 4])], []⟩

/-- `flushDemoRec` after its second `record` call: the threshold
`4 >= 3` fired a flush, removing both buffer keys. -/
def flushDemoRec2 : Recorder :=
  { flushDemoRec with buf_records := none, buf_eval_ids := none }

/-- The persistence log after that flush: one batch push of four ids
(two per recorded step, repeated, not deduplicated) and four dicts. -/
def flushDemoPer2 : Persist :=
  { flushDemoPer with
      pushes := [([0, 1, 0, 1], [([], 1), ([], 3), ([], 1), ([], 3)])] }

/-- Three model layers: plain layers 0 and 2, a cell/hidden pair at
layer 1, each tensor of shape `[1, 1]`. -/
def threeLayerStates : List LayerState :=
  [.plain [[10]], .lstm [[20]] [[30]], .plain [[40]]]

/-! ## Helper lemmas -/

theorem optMap_length (f : α → Option β) :
    ∀ (l : List α) (l2 : List β), optMap f l = some l2 → l2.length = l.length := by
  intro l
  induction l with
  | nil => intro l2 h; simp [optMap] at h; simp [← h]
  | cons a as ih =>
    intro l2 h
    simp only [optMap] at h
    cases hfa : f a with
    | none => rw [hfa] at h; exact absurd h (by simp)
    | some b =>
      rw [hfa] at h
      cases hrest : optMap f as with
      | none => rw [hrest] at h; exact absurd h (by simp)
      | some bs =>
        rw [hrest] at h
        simp at h
        simp [← h, ih bs hrest]

theorem optMap_isSome (f : α → Option β) :
    ∀ l : List α, (∀ a ∈ l, (f a).isSome) → (optMap f l).isSome := by
  intro l
  induction l with
  | nil => intro _; simp [optMap]
  | cons a as ih =>
    intro h
    have ha : (f a).isSome := h a (by simp)
    have has : (optMap f as).isSome := ih (fun x hx => h x (by simp [hx]))
    simp only [optMap]
    cases hfa : f a with
    | none => rw [hfa] at ha; simp at ha
    | some b =>
      cases hrest : optMap f as with
      | none => rw [hrest] at has; simp at has
      | some bs => simp

theorem record_eq_recordWith (r : Recorder) (msg : List (String × List Int))
    (p : Persist) (inp : List (List Int)) (hinp : r.inputs = some inp) :
    r.record msg p = recordWith r msg p inp := by
  unfold Recorder.record
  rw [hinp]

theorem evalTotals_aux (steps : List (ℚ × ℚ)) : ∀ acc : ℚ × ℚ,
    steps.foldl (fun acc s => (acc.1 + s.1, acc.2 + s.2)) acc
      = (acc.1 + (steps.map Prod.fst).sum, acc.2 + (steps.map Prod.snd).sum) := by
  induction steps with
  | nil => intro acc; simp
  | cons s ss ih =>
    intro acc
    simp only [List.foldl_cons, ih, List.map_cons, List.sum_cons, Prod.mk.injEq]
    constructor <;> ring

theorem evalTotals_eq (steps : List (ℚ × ℚ)) :
    evalTotals steps = ((steps.map Prod.fst).sum, (steps.map Prod.snd).sum) := by
  unfold evalTotals
  rw [evalTotals_aux]
  simp

theorem insertAll_spec (dn mn : String) : ∀ (rows : List (List Int)) (p : Persist),
    insertAll dn mn rows p
      = (List.range' p.nextId rows.length,
         { nextId := p.nextId + rows.length,
           insertions := p.insertions ++ rows.map (fun row => (dn, mn, row)),
           pushes := p.pushes }) := by
  intro rows
  induction rows with
  | nil => intro p; simp [insertAll, List.range']
  | cons row rest ih =>
    intro p
    simp only [insertAll, insert_evaluation, ih, List.length_cons, List.range',
      List.map_cons, Prod.mk.injEq, Persist.mk.injEq]
    refine ⟨trivial, by omega, by simp, trivial⟩

theorem collectStates_aux : ∀ (ss : List LayerState) (g : StateGroups),
    ss.foldl
      (fun g s =>
        match s with
        | .plain t => { g with state := g.state ++ [t] }
        | .lstm c h =>
          { state_c := g.state_c ++ [c], state_h := g.state_h ++ [h],
            state := g.state })
      g
    = ⟨g.state_c ++ cellsOf ss, g.state_h ++ hiddensOf ss,
       g.state ++ plainsOf ss⟩ := by
  intro ss
  induction ss with
  | nil => intro g; simp [cellsOf, hiddensOf, plainsOf]
  | cons s rest ih =>
    intro g
    cases s with
    | plain t =>
      simp only [List.foldl_cons, ih, cellsOf, hiddensOf, plainsOf,
        List.filterMap_cons]
      simp
    | lstm c h =>
      simp only [List.foldl_cons, ih, cellsOf, hiddensOf, plainsOf,
        List.filterMap_cons]
      simp

theorem collectStates_eq (ss : List LayerState) :
    collectStates ss = ⟨cellsOf ss, hiddensOf ss, plainsOf ss⟩ := by
  unfold collectStates
  rw [collectStates_aux]
  simp

theorem stackAxis1_shape (B U : ℕ) (ts : List (List (List Int)))
    (h : ∀ t ∈ ts, Shape2 B U t) :
    Shape3 B ts.length U (stackAxis1 B ts) := by
  unfold Shape3 stackAxis1
  refine ⟨by simp, ?_⟩
  intro plane hplane
  obtain ⟨b, hb, rfl⟩ := List.mem_map.mp hplane
  refine ⟨by simp, ?_⟩
  intro row hrow
  obtain ⟨t, ht, rfl⟩ := List.mem_map.mp hrow
  obtain ⟨hlen, hrows⟩ := h t ht
  have hbB : b < B := List.mem_range.mp hb
  have hbt : b < t.length := by omega
  rw [List.getD_eq_getElem t [] hbt]
  exact hrows _ (List.getElem_mem hbt)

theorem buildRecords_some (msg : List (String × List Int)) (B : ℕ)
    (h : ∀ nv ∈ msg, B ≤ nv.2.length) :
    ∃ l, buildRecords msg B = some l ∧ l.length = B := by
  have hs : (buildRecords msg B).isSome := by
    apply optMap_isSome
    intro i hi
    apply optMap_isSome
    intro nv hnv
    have hlt : i < nv.2.length := lt_of_lt_of_le (List.mem_range.mp hi) (h nv hnv)
    rw [List.getElem?_eq_getElem hlt]
    simp
  obtain ⟨l, hl⟩ := Option.isSome_iff_exists.mp hs
  refine ⟨l, hl, ?_⟩
  have := optMap_length _ _ _ hl
  simpa using this

theorem wordIds_some (inp : List (List Int)) (step B : ℕ)
    (hB : B ≤ inp.length) (hrow : ∀ row ∈ inp, step < row.length) :
    ∃ w, wordIds inp step B = some w ∧ w.length = B := by
  have hs : (wordIds inp step B).isSome := by
    apply optMap_isSome
    intro i hi
    have hlt : i < inp.length := lt_of_lt_of_le (List.mem_range.mp hi) hB
    rw [List.getElem?_eq_getElem hlt]
    have : step < inp[i].length := hrow _ (List.getElem_mem hlt)
    simp [List.getElem?_eq_getElem this]
  obtain ⟨w, hw⟩ := Option.isSome_iff_exists.mp hs
  refine ⟨w, hw, ?_⟩
  have := optMap_length _ _ _ hw
  simpa using this

theorem record_success (r : Recorder) (p : Persist) (inp : List (List Int))
    (msg : List (String × List Int))
    (hinp : r.inputs = some inp)
    (hB : r.batch_size = inp.length)
    (hmsg : ∀ nv ∈ msg, inp.length ≤ nv.2.length)
    (hrow : ∀ row ∈ inp, r.step < row.length) :
    ∃ r2 p2, r.record msg p = some (r2, p2) ∧
      r2.inputs = r.inputs ∧ r2.batch_size = r.batch_size ∧
      r2.step = r.step ∧ r2.eval_doc_id = r.eval_doc_id ∧
      r2.flush_every = r.flush_every ∧ r2.data_name = r.data_name ∧
      r2.model_name = r.model_name := by
  obtain ⟨sigs, hsigs, _⟩ := buildRecords_some msg r.batch_size
    (fun nv hnv => hB ▸ hmsg nv hnv)
  obtain ⟨wids, hwids, _⟩ := wordIds_some inp r.step r.batch_size
    (le_of_eq hB) hrow
  rw [record_eq_recordWith r msg p inp hinp]
  unfold recordWith
  rw [hsigs, hwids]
  by_cases hfl : r.flush_every ≤ (r.buf_eval_ids.getD [] ++ r.eval_doc_id).length
  · simp only [hfl, if_true]
    unfold Recorder.flush
    exact ⟨_, _, rfl, rfl, rfl, rfl, rfl, rfl, rfl, rfl⟩
  · simp only [hfl, if_false]
    exact ⟨_, _, rfl, rfl, rfl, rfl, rfl, rfl, rfl, rfl⟩

theorem evalRecordGo_ok (msgs : ℕ → List (String × List Int)) (L : ℕ)
    (inp : List (List Int)) (s : ℕ)
    (hmsg : ∀ i, ∀ nv ∈ msgs i, inp.length ≤ nv.2.length) :
    ∀ (idxs : List ℕ) (r : Recorder) (p : Persist),
      r.inputs = some inp → r.batch_size = inp.length → r.step = s →
      (∀ row ∈ inp, s < row.length) →
      ∃ r2 p2, evalRecordGo msgs false L idxs r p = Except.ok (r2, p2) := by
  intro idxs
  induction idxs with
  | nil => intro r p _ _ _ _; exact ⟨r, p, rfl⟩
  | cons i rest ih =>
    intro r p hinp hB hs hrow
    obtain ⟨r2, p2, hrec, h1, h2, h3, _, _, _, _⟩ :=
      record_success r p inp (msgs i) hinp hB (hmsg i) (by simp only [hs]; exact hrow)
    obtain ⟨r3, p3, hgo⟩ := ih r2 p2 (h1.trans hinp) (h2.trans hB) (h3.trans hs) hrow
    refine ⟨r3, p3, ?_⟩
    simp only [evalRecordGo, hrec]
    exact hgo

/-! ## Claim theorems -/

/-- C1: for every run of `Evaluator.evaluate` (one `(loss, acc)` block-sum
pair per loop iteration, `input_size = steps.length`) and every stride
`record_every`, the final reported average loss is the sum of the per-step
loss values divided by `input_size * record_every`, and the final reported
accuracy is the sum of the per-step accuracy values divided by the same
quantity — a per-token average, the same formula for any block sizing. -/
theorem evaluate_per_token_normalization (steps : List (ℚ × ℚ))
    (recordEvery : ℕ) :
    Evaluator.evaluate steps recordEvery
      = ((steps.map Prod.fst).sum / ((steps.length * recordEvery : ℕ) : ℚ),
         (steps.map Prod.snd).sum / ((steps.length * recordEvery : ℕ) : ℚ)) := by
  unfold Evaluator.evaluate
  rw [evalTotals_eq]

/-- C5: `Recorder.start` on a 2-D inputs array makes exactly one
`insert_evaluation` call per sample row, in row order, each carrying the
dataset name, the model name and that row's full token sequence, and the
returned identifiers are stored in the same order (appended to
`eval_doc_id`); no push happens and the retained inputs / batch size are
set from the array. -/
theorem start_creates_one_doc_per_row (r : Recorder) (p : Persist)
    (inp : List (List Int)) :
    ((r.start inp p).2.insertions
        = p.insertions ++ inp.map (fun row => (r.data_name, r.model_name, row))) ∧
    (r.start inp p).2.insertions.length = p.insertions.length + inp.length ∧
    (r.start inp p).1.eval_doc_id
        = r.eval_doc_id ++ List.range' p.nextId inp.length ∧
    (r.start inp p).2.nextId = p.nextId + inp.length ∧
    (r.start inp p).2.pushes = p.pushes ∧
    (r.start inp p).1.batch_size = inp.length ∧
    (r.start inp p).1.inputs = some inp := by
  unfold Recorder.start
  rw [insertAll_spec]
  simp

/-- C8: with `log_state` set, the per-layer state entries are partitioned so
that every cell/hidden pair contributes its cell to the `state_c` group and
its hidden to `state_h`, while every plain state goes to `state`, and each
group stacked along the new layer axis has shape
`[batch, num_layers_in_group, units]`. -/
theorem state_group_partition_and_stack (ss : List LayerState) (B U : ℕ)
    (hp : ∀ t ∈ plainsOf ss, Shape2 B U t)
    (hc : ∀ t ∈ cellsOf ss, Shape2 B U t)
    (hh : ∀ t ∈ hiddensOf ss, Shape2 B U t) :
    (collectStates ss).state = plainsOf ss ∧
    (collectStates ss).state_c = cellsOf ss ∧
    (collectStates ss).state_h = hiddensOf ss ∧
    Shape3 B (plainsOf ss).length U (stackAxis1 B (collectStates ss).state) ∧
    Shape3 B (cellsOf ss).length U (stackAxis1 B (collectStates ss).state_c) ∧
    Shape3 B (hiddensOf ss).length U (stackAxis1 B (collectStates ss).state_h) := by
  rw [collectStates_eq]
  exact ⟨rfl, rfl, rfl, stackAxis1_shape B U _ hp, stackAxis1_shape B U _ hc,
         stackAxis1_shape B U _ hh⟩

/-- C8 witness: three layers with plain layers 0 and 2 and a gated layer 1
(`B = 1`, `U = 1`): the `state` group stacks layers 0 and 2 (shape
`[1, 2, 1]`) and `state_c`/`state_h` each hold layer 1 alone
(shape `[1, 1, 1]`). -/
theorem state_group_partition_and_stack_witness :
    (collectStates threeLayerStates).state = plainsOf threeLayerStates ∧
    (collectStates threeLayerStates).state_c = cellsOf threeLayerStates ∧
    (collectStates threeLayerStates).state_h = hiddensOf threeLayerStates ∧
    Shape3 1 (plainsOf threeLayerStates).length 1
      (stackAxis1 1 (collectStates threeLayerStates).state) ∧
    Shape3 1 (cellsOf threeLayerStates).length 1
      (stackAxis1 1 (collectStates threeLayerStates).state_c) ∧
    Shape3 1 (hiddensOf threeLayerStates).length 1
      (stackAxis1 1 (collectStates threeLayerStates).state_h) :=
  state_group_partition_and_stack threeLayerStates 1 1
    (by decide) (by decide) (by decide)

/-- C9: constructing an `Evaluator` with `log_gradients=True` always raises
an `AttributeError`, for every otherwise-valid combination of constructor
arguments: the gradient branch subscript-assigns into `self.summary_ops`
before that attribute is bound. -/
theorem init_log_gradients_attribute_error (m : ModelHandle)
    (B recordEvery : ℕ) (logState logInput logOutput mapToEmbedding : Bool) :
    Evaluator.mkInit m B recordEvery logState logInput logOutput true
        mapToEmbedding
      = Except.error
          "AttributeError: Evaluator object has no attribute summary_ops" :=
  rfl

/-- C7: `evaluate_and_record` raises a `TypeError` carrying the offending
runtime type name when `inputs` cannot be converted to a 2-D array — with
the persistence log untouched, i.e. before `recorder.start` or any model
step has run; a non-`None` `targets` failing the same conversion raises the
analogous error, equally before any effect; `targets=None` is accepted and
control proceeds directly to `recorder.start` and the recording loop. -/
theorem evaluate_and_record_conversion_errors (tname tname2 : String)
    (targets : Option PyVal) (inp : List (List Int)) (r : Recorder)
    (p : Persist) (msgs : ℕ → List (String × List Int)) (verbose : Bool) :
    (evaluate_and_record (PyVal.unconvertible tname) targets r p msgs verbose
       = Except.error
           ("Unable to convert inputs of type " ++ tname ++
            " into numpy array!", p)) ∧
    (evaluate_and_record (PyVal.convertible inp)
        (some (PyVal.unconvertible tname2)) r p msgs verbose
       = Except.error
           ("Unable to convert targets of type " ++ tname2 ++
            " into numpy array!", p)) ∧
    (evaluate_and_record (PyVal.convertible inp) none r p msgs verbose
       = evalRecordGo msgs verbose (shape1 inp) (List.range (shape1 inp))
           (r.start inp p).1 (r.start inp p).2) :=
  ⟨rfl, rfl, rfl⟩

/-- C2: the source never increments `Recorder.step` (`self.step` is
initialized and read but never advanced), so the k-th `record` call does not
stamp `inputs[i, k]`: in a session started on `[[5, 7]]`, after two record
calls the step counter is still 0 and both buffered per-sample dicts carry
`word_id = 5` (`inputs[0, 0]`), whereas under the claim the second call
would have stamped `inputs[0, 1] = 7`. -/
theorem record_word_id_stuck_at_first_column :
    demoRec2.map (fun rp => (rp.1.step, rp.1.buf_records))
        = some (0, some [⟨[], 5⟩, ⟨[], 5⟩]) ∧
    demoRec2.map (fun rp => rp.1.buf_records)
        ≠ some (some [⟨[], 5⟩, ⟨[], 7⟩]) :=
  ⟨by decide, by decide⟩

/-- C4 counterexample: `flush` is not safe on empty buffers — on a fresh
`Recorder` it raises `KeyError` (`dict.pop` on absent keys), and after one
record call a first `flush` succeeds but the immediately following second
`flush` raises the same `KeyError` instead of being a no-op. -/
theorem flush_empty_or_twice_raises_cex :
    ((Recorder.init "data" "model" 100).flush ⟨0, [], []⟩ = none) ∧
    demoFlush1.isSome = true ∧
    demoFlush2 = none :=
  ⟨rfl, by decide, by decide⟩

/-- C4amended: `Recorder.flush` pops both buffer keys: when either key is
absent (fresh recorder, or immediately after a previous flush with no
intervening record) it raises `KeyError`; when both keys are present it
performs exactly one batch-persistence call with the buffered ids and
records (possibly a degenerate empty batch) and removes both keys, so a
repeat flush is not a no-op but an error. -/
theorem flush_pop_semantics (r : Recorder) (p : Persist) :
    (r.buf_eval_ids = none → r.flush p = none) ∧
    (r.buf_records = none → r.flush p = none) ∧
    (∀ ids recs, r.buf_eval_ids = some ids → r.buf_records = some recs →
       r.flush p = some
         ({ r with buf_eval_ids := none, buf_records := none },
          push_evaluation_records p ids
            (recs.map (fun e => (e.signals, e.word_id))))) := by
  refine ⟨?_, ?_, ?_⟩
  · intro h
    cases hr : r.buf_records <;> simp [Recorder.flush, h, hr]
  · intro h
    cases hi : r.buf_eval_ids <;> simp [Recorder.flush, h, hi]
  · intro ids recs hi hr
    simp [Recorder.flush, hi, hr]

/-- C4amended witness: a fresh recorder has no buffer keys, so its first
`flush` raises. -/
theorem flush_pop_semantics_witness :
    (Recorder.init "data" "model" 5).flush ⟨0, [], []⟩ = none :=
  (flush_pop_semantics (Recorder.init "data" "model" 5) ⟨0, [], []⟩).1 rfl

/-- C6 counterexample: calling `start` for a second session on a recorder
that still holds one recorded step leaves the record buffer non-empty
(length 1, not 0) and appends the new document id to the old one
(`eval_doc_id = [0, 1]`), so prior-session buffer contents are not
cleared by `start`. -/
theorem start_second_session_not_cleared_cex :
    demoRestart.map
        (fun rp => (bufLen rp.1.buf_records, bufLen rp.1.buf_eval_ids,
                    rp.1.eval_doc_id))
      = some (1, 1, [0, 1]) ∧
    demoRestart.map (fun rp => bufLen rp.1.buf_records) ≠ some 0 :=
  ⟨by decide, by decide⟩

/-- C6amended: `Recorder.start` touches neither the step counter nor the
buffers — it leaves both exactly as they were, so a record call immediately
following `start` finds empty buffers and step 0 only on a freshly
constructed recorder, whose `__init__` set `step = 0` and created the
buffer with no keys; contents left by a prior session persist across
`start`. -/
theorem start_leaves_step_and_buffers (r : Recorder) (inp : List (List Int))
    (p : Persist) (dn mn : String) (fe : ℕ) :
    (r.start inp p).1.step = r.step ∧
    (r.start inp p).1.buf_records = r.buf_records ∧
    (r.start inp p).1.buf_eval_ids = r.buf_eval_ids ∧
    (Recorder.init dn mn fe).step = 0 ∧
    bufLen (Recorder.init dn mn fe).buf_records = 0 ∧
    bufLen (Recorder.init dn mn fe).buf_eval_ids = 0 := by
  unfold Recorder.start Recorder.init bufLen
  simp

theorem start_fields (r : Recorder) (inp : List (List Int)) (p : Persist) :
    (r.start inp p).1.inputs = some inp ∧
    (r.start inp p).1.batch_size = inp.length ∧
    (r.start inp p).1.step = r.step := by
  unfold Recorder.start
  exact ⟨rfl, rfl, rfl⟩

/-- C3: a successful `record` call appends exactly `batch_size` per-sample
dicts to the record buffer and the full `batch_size`-element document-id
list to the id buffer (ids repeated per recorded step, not deduplicated);
a flush is triggered exactly when the id buffer's length reaches
`flush_every`, after which both buffers have observable length 0, and
otherwise both buffers grow by `batch_size` with no push. -/
theorem record_appends_and_flush_threshold (r : Recorder) (p : Persist)
    (msg : List (String × List Int)) (r2 : Recorder) (p2 : Persist)
    (hB : r.eval_doc_id.length = r.batch_size)
    (h : r.record msg p = some (r2, p2)) :
    (r.flush_every ≤ bufLen r.buf_eval_ids + r.batch_size →
       bufLen r2.buf_eval_ids = 0 ∧ bufLen r2.buf_records = 0 ∧
       ∃ recs, recs.length = bufLen r.buf_records + r.batch_size ∧
         p2.pushes
           = p.pushes ++ [(r.buf_eval_ids.getD [] ++ r.eval_doc_id, recs)]) ∧
    (bufLen r.buf_eval_ids + r.batch_size < r.flush_every →
       r2.buf_eval_ids = some (r.buf_eval_ids.getD [] ++ r.eval_doc_id) ∧
       bufLen r2.buf_eval_ids = bufLen r.buf_eval_ids + r.batch_size ∧
       bufLen r2.buf_records = bufLen r.buf_records + r.batch_size ∧
       p2.pushes = p.pushes) := by
  cases hinp : r.inputs with
  | none =>
    unfold Recorder.record at h
    rw [hinp] at h
    exact absurd h (by simp)
  | some inp =>
    rw [record_eq_recordWith r msg p inp hinp] at h
    unfold recordWith at h
    cases hsigs : buildRecords msg r.batch_size with
    | none => rw [hsigs] at h; exact absurd h (by simp)
    | some sigs =>
      cases hwids : wordIds inp r.step r.batch_size with
      | none => rw [hsigs, hwids] at h; exact absurd h (by simp)
      | some wids =>
        rw [hsigs, hwids] at h
        dsimp only at h
        have hsl : sigs.length = r.batch_size := by
          unfold buildRecords at hsigs
          have := optMap_length _ _ _ hsigs
          simpa using this
        have hwl : wids.length = r.batch_size := by
          unfold wordIds at hwids
          have := optMap_length _ _ _ hwids
          simpa using this
        have hzl : (List.zipWith RecEntry.mk sigs wids).length = r.batch_size := by
          rw [List.length_zipWith, hsl, hwl, min_self]
        have hni : (r.buf_eval_ids.getD [] ++ r.eval_doc_id).length
            = bufLen r.buf_eval_ids + r.batch_size := by
          simp [bufLen, hB]
        by_cases hfl :
            r.flush_every ≤ (r.buf_eval_ids.getD [] ++ r.eval_doc_id).length
        · rw [if_pos hfl] at h
          unfold Recorder.flush at h
          dsimp only at h
          simp only [Option.some.injEq, Prod.mk.injEq] at h
          obtain ⟨hr2, hp2⟩ := h
          constructor
          · intro _
            refine ⟨?_, ?_, ?_⟩
            · rw [← hr2]; simp [bufLen]
            · rw [← hr2]; simp [bufLen]
            · refine ⟨(r.buf_records.getD [] ++
                  List.zipWith RecEntry.mk sigs wids).map
                    (fun e => (e.signals, e.word_id)), ?_, ?_⟩
              · simp [bufLen, hzl]
              · rw [← hp2]
                simp [push_evaluation_records]
          · intro hlt
            rw [hni] at hfl
            omega
        · rw [if_neg hfl] at h
          simp only [Option.some.injEq, Prod.mk.injEq] at h
          obtain ⟨hr2, hp2⟩ := h
          constructor
          · intro hle
            rw [hni] at hfl
            omega
          · intro _
            refine ⟨?_, ?_, ?_, ?_⟩
            · rw [← hr2]
            · rw [← hr2]; simp [bufLen, hB]
            · rw [← hr2]; simp [bufLen, hzl]
            · rw [← hp2]

/-- C3 witness: with `flush_every = 3` and `batch_size = 2`, the first
record call of the session leaves the buffers at length 2 with no push
(2 < 3, no flush), and the second record call reaches 4 ≥ 3 ids and
flushes, emptying both buffers and pushing the repeated id list
`[0, 1, 0, 1]`. -/
theorem record_appends_and_flush_threshold_witness :
    (flushDemoRec2.record [] flushDemoPer).map
        (fun rp => (bufLen rp.1.buf_eval_ids, bufLen rp.1.buf_records,
                    rp.2.pushes.length))
      = some (2, 2, 0) ∧
    flushDemoRec.eval_doc_id.length = flushDemoRec.batch_size ∧
    flushDemoRec.record [] flushDemoPer = some (flushDemoRec2, flushDemoPer2) ∧
    flushDemoRec.flush_every
      ≤ bufLen flushDemoRec.buf_eval_ids + flushDemoRec.batch_size ∧
    (bufLen flushDemoRec2.buf_eval_ids = 0 ∧
     bufLen flushDemoRec2.buf_records = 0 ∧
     ∃ recs, recs.length = bufLen flushDemoRec.buf_records +
         flushDemoRec.batch_size ∧
       flushDemoPer2.pushes = flushDemoPer.pushes ++
         [(flushDemoRec.buf_eval_ids.getD [] ++ flushDemoRec.eval_doc_id,
           recs)]) :=
  ⟨by decide, rfl, by decide, by decide,
   (record_appends_and_flush_threshold flushDemoRec flushDemoPer []
      flushDemoRec2 flushDemoPer2 rfl (by decide)).1 (by decide)⟩

/-- C10: for every inputs array whose row length `L` satisfies
`1 <= L < 10` (so `L // 10 == 0`), `evaluate_and_record` with
`verbose=True` raises `ZeroDivisionError` on the first loop iteration
(the progress test computes `i % (input_size // 10)`), while the same
call with `verbose=False` completes normally. -/
theorem verbose_short_input_zero_division (row0 : List Int)
    (rest : List (List Int)) (L : ℕ) (r : Recorder) (p : Persist)
    (msgs : ℕ → List (String × List Int))
    (hrows : ∀ row ∈ (row0 :: rest : List (List Int)), row.length = L)
    (h1 : 1 ≤ L) (h10 : L < 10) (hstep : r.step = 0)
    (hmsg : ∀ i, ∀ nv ∈ msgs i,
      (row0 :: rest : List (List Int)).length ≤ nv.2.length) :
    (∃ p2, evaluate_and_record (PyVal.convertible (row0 :: rest)) none r p
        msgs true = Except.error ("ZeroDivisionError", p2)) ∧
    (∃ r2 p2, evaluate_and_record (PyVal.convertible (row0 :: rest)) none r p
        msgs false = Except.ok (r2, p2)) := by
  have hL : shape1 (row0 :: rest) = L := by
    have := hrows row0 (by simp)
    simpa [shape1] using this
  have hred : ∀ vb : Bool,
      evaluate_and_record (PyVal.convertible (row0 :: rest)) none r p msgs vb
        = evalRecordGo msgs vb (shape1 (row0 :: rest))
            (List.range (shape1 (row0 :: rest)))
            (r.start (row0 :: rest) p).1 (r.start (row0 :: rest) p).2 :=
    fun _ => rfl
  obtain ⟨hinp1, hbs1, hst1⟩ := start_fields r (row0 :: rest) p
  have hrowpos : ∀ row ∈ (row0 :: rest : List (List Int)),
      (r.start (row0 :: rest) p).1.step < row.length := by
    intro row hrow
    rw [hst1, hstep, hrows row hrow]
    omega
  constructor
  · obtain ⟨L2, rfl⟩ : ∃ L2, L = L2 + 1 := ⟨L - 1, by omega⟩
    rw [hred true, hL]
    rw [List.range_succ_eq_map]
    obtain ⟨r2, p2, hrec, _⟩ := record_success (r.start (row0 :: rest) p).1
      (r.start (row0 :: rest) p).2 (row0 :: rest) (msgs 0) hinp1 hbs1
      (hmsg 0) hrowpos
    refine ⟨p2, ?_⟩
    have hdiv : (L2 + 1) / 10 = 0 := Nat.div_eq_of_lt h10
    simp only [evalRecordGo, hrec, hdiv, pymod]
    simp
  · rw [hred false, hL]
    obtain ⟨r2, p2, hok⟩ := evalRecordGo_ok msgs L (row0 :: rest) 0 hmsg
      (List.range L) (r.start (row0 :: rest) p).1 (r.start (row0 :: rest) p).2
      hinp1 hbs1 (hst1.trans hstep)
      (by intro row hrow; rw [hrows row hrow]; omega)
    exact ⟨r2, p2, hok⟩

/-- C10 witness: a single-sample inputs array of length `L = 3` raises
`ZeroDivisionError` with `verbose=True` and completes with
`verbose=False`. -/
theorem verbose_short_input_zero_division_witness :
    (∃ p2, evaluate_and_record (PyVal.convertible [[1, 2, 3]]) none
        (Recorder.init "data" "model" 100) ⟨0, [], []⟩ (fun _ => []) true
      = Except.error ("ZeroDivisionError", p2)) ∧
    (∃ r2 p2, evaluate_and_record (PyVal.convertible [[1, 2, 3]]) none
        (Recorder.init "data" "model" 100) ⟨0, [], []⟩ (fun _ => []) false
      = Except.ok (r2, p2)) :=
  verbose_short_input_zero_division [1, 2, 3] [] 3
    (Recorder.init "data" "model" 100) ⟨0, [], []⟩ (fun _ => [])
    (by decide) (by decide) (by decide) rfl
    (by intro i nv hnv; simp at hnv)
